import Mathlib

/-!
Verification of the IAM user provisioning script (src/main.py).

The script is shallowly embedded: the configuration sources (Streamlit
secrets and environment variables) become an explicit environment record,
the boto3 IAM and STS calls become fields of an API record whose results
are values of an Except type (a raised Python exception is the error
case, distinguishing ClientError from every other exception class), and
each embedded function additionally returns the list of API calls it
performed, so that claims about calls never being made are statable.
-/

/-- A Python exception, as far as the script distinguishes them: a
botocore ClientError carrying its string description, or any other
exception carrying its string description. -/
inductive PyExc where
  | clientError (msg : String)
  | other (msg : String)
deriving DecidableEq, Repr

/-- The string description of an exception, Python str(e). -/
def PyExc.toMessage : PyExc → String
  | .clientError m => m
  | .other m => m

/-- The aws section of the Streamlit secrets source, when present:
mandatory access key id and secret key, optional region_name. -/
structure AwsSecrets where
  aws_access_key_id : String
  aws_secret_access_key : String
  region_name : Option String
deriving DecidableEq, Repr

/-- The configuration environment visible to get_aws_credentials:
the aws section of the secrets source if hasattr(st, secrets) and the
section exists, and the three relevant environment variables. -/
structure Env where
  secrets_aws : Option AwsSecrets
  env_access_key_id : Option String
  env_secret_access_key : Option String
  env_region : Option String
deriving DecidableEq, Repr

/-- The credential bundle returned by get_aws_credentials. -/
structure Credentials where
  aws_access_key_id : String
  aws_secret_access_key : String
  region_name : String
deriving DecidableEq, Repr

/-- Embeds get_aws_credentials (src/main.py lines 22-35): first the
secrets source with region defaulting to ap-south-1, else both
environment variables with region defaulting to us-east-1, else None. -/
def get_aws_credentials (e : Env) : Option Credentials :=
  match e.secrets_aws with
  | some s =>
      some { aws_access_key_id := s.aws_access_key_id,
             aws_secret_access_key := s.aws_secret_access_key,
             region_name := s.region_name.getD "ap-south-1" }
  | none =>
      match e.env_access_key_id, e.env_secret_access_key with
      | some ak, some sk =>
          some { aws_access_key_id := ak,
                 aws_secret_access_key := sk,
                 region_name := e.env_region.getD "us-east-1" }
      | _, _ => none

/-- Embeds create_password (src/main.py lines 38-39). -/
def create_password (username : String) : String :=
  username ++ "@encode2025"

/-- The response of iam.create_user, as far as the script reads it:
the Arn field of its User entry. -/
structure CreateUserResponse where
  arn : String
deriving DecidableEq, Repr

/-- One call made against the external identity-management API,
recorded with the arguments the script passes. -/
inductive ApiCall where
  | clientInit
  | createUser (username : String)
  | createLoginProfile (username : String) (password : String)
  | addUserToGroup (group : String) (username : String)
  | listAccountAliases
  | getCallerIdentity
deriving DecidableEq, Repr

/-- The behaviour of the external world for one provisioning attempt:
construction of the boto3 IAM client, and each API operation the script
invokes. An error value is a raised exception. The response of
list_account_aliases is modelled as the optional AccountAliases entry,
read with response.get(AccountAliases, []); get_caller_identity covers
the STS client construction plus the call, returning the Account field. -/
structure Api where
  client_init : Except PyExc Unit
  create_user : String → Except PyExc CreateUserResponse
  create_login_profile : String → String → Except PyExc Unit
  add_user_to_group : String → String → Except PyExc Unit
  list_account_aliases : Except PyExc (Option (List String))
  get_caller_identity : Except PyExc String

/-- Embeds get_custom_signin_url (src/main.py lines 42-62): try the
first account alias, else the caller account id via STS; any exception
anywhere in the try block degrades to the generic sign-in URL. Returns
the URL together with the API calls attempted. -/
def get_custom_signin_url (api : Api) : String × List ApiCall :=
  match api.list_account_aliases with
  | .error _ => ("https://signin.aws.amazon.com/console", [.listAccountAliases])
  | .ok response =>
      match response.getD [] with
      | a :: _ =>
          ("https://" ++ a ++ ".signin.aws.amazon.com/console", [.listAccountAliases])
      | [] =>
          match api.get_caller_identity with
          | .ok account_id =>
              ("https://" ++ account_id ++ ".signin.aws.amazon.com/console",
               [.listAccountAliases, .getCallerIdentity])
          | .error _ =>
              ("https://signin.aws.amazon.com/console",
               [.listAccountAliases, .getCallerIdentity])

/-- The result record of create_iam_user: the success dict with its five
string fields, or the failure dict with its error string. -/
inductive ProvisionResult where
  | success (username : String) (password : String) (arn : String)
      (console_url : String) (signin_url : String)
  | failure (error : String)
deriving DecidableEq, Repr

/-- The body of the try block of create_iam_user (src/main.py lines
66-92), before the except ClientError clause: credential resolution,
client construction, create_user, create_login_profile,
add_user_to_group, sign-in URL resolution, success assembly. An error
value is an exception escaping the body. Returns the outcome together
with the API calls attempted, in order. -/
def create_iam_user_body (env : Env) (api : Api) (username : String)
    (group_name : String) : Except PyExc ProvisionResult × List ApiCall :=
  match get_aws_credentials env with
  | none => (.ok (.failure "AWS credentials not found."), [])
  | some _ =>
      match api.client_init with
      | .error e => (.error e, [.clientInit])
      | .ok _ =>
          match api.create_user username with
          | .error e => (.error e, [.clientInit, .createUser username])
          | .ok response =>
              let password := create_password username
              match api.create_login_profile username password with
              | .error e =>
                  (.error e,
                   [.clientInit, .createUser username,
                    .createLoginProfile username password])
              | .ok _ =>
                  match api.add_user_to_group group_name username with
                  | .error e =>
                      (.error e,
                       [.clientInit, .createUser username,
                        .createLoginProfile username password,
                        .addUserToGroup group_name username])
                  | .ok _ =>
                      let url_calls := get_custom_signin_url api
                      (.ok (.success username password response.arn
                              "https://console.aws.amazon.com/" url_calls.1),
                       [.clientInit, .createUser username,
                        .createLoginProfile username password,
                        .addUserToGroup group_name username] ++ url_calls.2)

/-- Embeds create_iam_user (src/main.py lines 65-94): the try body with
the except ClientError clause, which converts a ClientError into the
failure record carrying str(e); every other exception escapes. -/
def create_iam_user (env : Env) (api : Api) (username : String)
    (group_name : String) : Except PyExc ProvisionResult × List ApiCall :=
  match create_iam_user_body env api username group_name with
  | (.error (.clientError m), calls) => (.ok (.failure m), calls)
  | other => other

/-- The default for the group_name parameter of create_iam_user. -/
def default_group_name : String := "AWS_Participants"

/-- Embeds create_credentials_text (src/main.py lines 97-110): the
fixed-layout credentials document. A pure function of its four string
arguments; the console URL is the hard-coded literal. -/
def create_credentials_text (username : String) (password : String)
    (arn : String) (signin_url : String) : String :=
  "AWS WORKSHOP CREDENTIALS\n------------------------\nUsername: "
    ++ username
    ++ "\nPassword: " ++ password
    ++ "\nARN: " ++ arn
    ++ "\nConsole URL: " ++ "https://console.aws.amazon.com/"
    ++ "\nSign-in URL: " ++ signin_url
    ++ "\n\nInstructions:\n1. Go to the Sign-in URL above\n2. Enter the Username and Password\n3. You don\x27t need to enter an account ID\n"

/-- What the form submission handler does with the submitted username:
either it sets the validation error message without calling
create_iam_user, or it invokes create_iam_user on the username. -/
inductive FormOutcome where
  | validationError (msg : String)
  | invoked (username : String)
deriving DecidableEq, Repr

/-- Embeds the submission branch of the user_form block (src/main.py
lines 125-130): Python if not username, which for a string tests
emptiness only, decides between the validation message and the call
create_iam_user(username). -/
def user_form_submit (username : String) : FormOutcome :=
  if username = "" then .validationError "Username cannot be empty!"
  else .invoked username

/-- One string occurs verbatim inside another. -/
def OccursIn (needle hay : String) : Prop :=
  ∃ p s, hay = p ++ needle ++ s

/-- Concrete environment with an aws secrets section, for witnesses. -/
def sampleEnv : Env :=
  { secrets_aws :=
      some { aws_access_key_id := "AKIA"
             aws_secret_access_key := "SECRET"
             region_name := none },
    env_access_key_id := none, env_secret_access_key := none, env_region := none }

/-- Concrete environment with no secrets section and no environment
variables, for witnesses. -/
def emptyEnv : Env :=
  { secrets_aws := none, env_access_key_id := none, env_secret_access_key := none,
    env_region := none }

/-- Concrete API behaviour in which every call succeeds and one account
alias is configured, for witnesses. -/
def sampleApiOk : Api :=
  { client_init := .ok ()
    create_user := fun u => .ok { arn := "arn:aws:iam::123456789012:user/" ++ u }
    create_login_profile := fun _ _ => .ok ()
    add_user_to_group := fun _ _ => .ok ()
    list_account_aliases := .ok (some ["myalias"])
    get_caller_identity := .ok "123456789012" }

/-- Variant of the successful API behaviour with no configured alias. -/
def sampleApiNoAlias : Api :=
  { sampleApiOk with list_account_aliases := .ok (some []) }

/-- Variant in which create_user raises a ClientError. -/
def sampleApiCreateUserErr : Api :=
  { sampleApiOk with
    create_user := fun _ => .error (.clientError "EntityAlreadyExists") }

/-- Variant in which the alias listing raises a non ClientError exception. -/
def sampleApiAliasErr : Api :=
  { sampleApiOk with list_account_aliases := .error (.other "AttributeError") }

/-- Variant in which create_user raises a non ClientError exception. -/
def sampleApiOtherErr : Api :=
  { sampleApiOk with create_user := fun _ => .error (.other "KeyError") }

/-- Helper: what a success outcome of create_iam_user forces about the
run: the field values of the success record, that every required API
call succeeded, and the exact call trace. -/
theorem success_run_shape (env : Env) (api : Api) (u g : String)
    (un pw arn cu su : String) (calls : List ApiCall)
    (h : create_iam_user env api u g = (.ok (.success un pw arn cu su), calls)) :
    un = u ∧ pw = create_password u ∧
    cu = "https://console.aws.amazon.com/" ∧
    su = (get_custom_signin_url api).1 ∧
    (∃ c, get_aws_credentials env = some c) ∧
    api.client_init = .ok () ∧
    api.create_user u = .ok { arn := arn } ∧
    api.create_login_profile u (create_password u) = .ok () ∧
    api.add_user_to_group g u = .ok () ∧
    calls = [.clientInit, .createUser u, .createLoginProfile u (create_password u),
      .addUserToGroup g u] ++ (get_custom_signin_url api).2 := by
  cases hcred : get_aws_credentials env with
  | none => simp [create_iam_user, create_iam_user_body, hcred] at h
  | some c =>
    cases hinit : api.client_init with
    | error e =>
      cases e <;> simp [create_iam_user, create_iam_user_body, hcred, hinit] at h
    | ok uinit =>
      cases hcu : api.create_user u with
      | error e =>
        cases e <;> simp [create_iam_user, create_iam_user_body, hcred, hinit, hcu] at h
      | ok resp =>
        cases hlp : api.create_login_profile u (create_password u) with
        | error e =>
          cases e <;>
            simp [create_iam_user, create_iam_user_body, hcred, hinit, hcu, hlp] at h
        | ok ulp =>
          cases hag : api.add_user_to_group g u with
          | error e =>
            cases e <;>
              simp [create_iam_user, create_iam_user_body, hcred, hinit, hcu, hlp, hag] at h
          | ok uag =>
            simp [create_iam_user, create_iam_user_body, hcred, hinit, hcu, hlp, hag] at h
            obtain ⟨⟨h1, h2, h3, h4, h5⟩, h6⟩ := h
            cases uinit
            cases ulp
            cases uag
            cases resp with
            | mk respArn =>
              refine ⟨h1.symm, h2.symm, h4.symm, h5.symm, ⟨c, rfl⟩, rfl, ?_, rfl, rfl, ?_⟩
              · simp only [← h3]
              · first
                | simpa using h6
                | simpa using h6.symm

/-- C1: for every non-empty username u, a create_iam_user call that
returns a success record has a password field equal to exactly the
string u followed by @encode2025, and this same string is the password
passed to create_login_profile, the call that sets the login credential
of the account, as recorded in the call trace. -/
theorem C1_password_exact (env : Env) (api : Api) (u g : String) (hu : u ≠ "")
    (un pw arn cu su : String) (calls : List ApiCall)
    (h : create_iam_user env api u g = (.ok (.success un pw arn cu su), calls)) :
    pw = u ++ "@encode2025" ∧ ApiCall.createLoginProfile u pw ∈ calls := by
  obtain ⟨-, h2, -, -, -, -, -, -, -, hcalls⟩ :=
    success_run_shape env api u g un pw arn cu su calls h
  subst h2
  exact ⟨rfl, by simp [hcalls, create_password]⟩

/-- Witness for C1 at username alice with an all-success API. -/
theorem C1_witness :
    "alice@encode2025" = "alice" ++ "@encode2025" ∧
      ApiCall.createLoginProfile "alice" "alice@encode2025" ∈
        ([.clientInit, .createUser "alice",
          .createLoginProfile "alice" "alice@encode2025",
          .addUserToGroup "AWS_Participants" "alice",
          .listAccountAliases] : List ApiCall) :=
  C1_password_exact sampleEnv sampleApiOk "alice" "AWS_Participants" (by decide)
    "alice" "alice@encode2025" "arn:aws:iam::123456789012:user/alice"
    "https://console.aws.amazon.com/" "https://myalias.signin.aws.amazon.com/console"
    [.clientInit, .createUser "alice",
     .createLoginProfile "alice" "alice@encode2025",
     .addUserToGroup "AWS_Participants" "alice",
     .listAccountAliases] rfl

/-- C2 counterexample: the whitespace-only username consisting of a
single space is not caught by the emptiness test of the form handler,
Python if not username, so submission does invoke create_iam_user on it
instead of producing the validation error message. -/
theorem C2_counterexample :
    user_form_submit " " = FormOutcome.invoked " " := by decide

/-- C2, amended: only the exactly empty username is rejected: for empty
input the handler produces the validation error message Username cannot
be empty! and does not invoke create_iam_user, while every non-empty
input, including whitespace-only strings, is passed to create_iam_user. -/
theorem C2_amended_empty_only (u : String) :
    (u = "" → user_form_submit u = .validationError "Username cannot be empty!") ∧
    (u ≠ "" → user_form_submit u = .invoked u) := by
  constructor <;> intro h <;> simp [user_form_submit, h]

/-- Witness for the amended C2 at the empty and the single-space input. -/
theorem C2_witness :
    user_form_submit "" = FormOutcome.validationError "Username cannot be empty!" ∧
      user_form_submit " " = FormOutcome.invoked " " :=
  ⟨(C2_amended_empty_only "").1 rfl, (C2_amended_empty_only " ").2 (by decide)⟩

/-- C3: when credential resolution returns none, create_iam_user returns
the failure record whose message is exactly AWS credentials not found.,
and the call trace is empty: no client construction and no API call. -/
theorem C3_no_credentials_failure (env : Env) (api : Api) (u g : String)
    (h : get_aws_credentials env = none) :
    create_iam_user env api u g =
      (.ok (.failure "AWS credentials not found."), ([] : List ApiCall)) := by
  simp [create_iam_user, create_iam_user_body, h]

/-- Witness for C3 on the environment with no credential source. -/
theorem C3_witness :
    create_iam_user emptyEnv sampleApiOk "alice" "AWS_Participants" =
      (.ok (.failure "AWS credentials not found."), ([] : List ApiCall)) :=
  C3_no_credentials_failure emptyEnv sampleApiOk "alice" "AWS_Participants" rfl

/-- C4: with credentials resolvable and client construction succeeding,
a ClientError raised by create_user, by create_login_profile or by
add_user_to_group aborts create_iam_user at that point and returns the
failure record whose message is the error description verbatim, with no
inspection of the error kind; the call trace stops at the failing call,
so no later provisioning step executes. -/
theorem C4_client_error_aborts (env : Env) (api : Api) (u g m : String)
    (c : Credentials) (hc : get_aws_credentials env = some c)
    (hi : api.client_init = .ok ()) :
    (api.create_user u = .error (.clientError m) →
      create_iam_user env api u g =
        (.ok (.failure m), [.clientInit, .createUser u])) ∧
    (∀ r, api.create_user u = .ok r →
      api.create_login_profile u (create_password u) = .error (.clientError m) →
      create_iam_user env api u g =
        (.ok (.failure m),
         [.clientInit, .createUser u,
          .createLoginProfile u (create_password u)])) ∧
    (∀ r, api.create_user u = .ok r →
      api.create_login_profile u (create_password u) = .ok () →
      api.add_user_to_group g u = .error (.clientError m) →
      create_iam_user env api u g =
        (.ok (.failure m),
         [.clientInit, .createUser u,
          .createLoginProfile u (create_password u),
          .addUserToGroup g u])) := by
  refine ⟨fun h1 => ?_, fun r h1 h2 => ?_, fun r h1 h2 h3 => ?_⟩ <;>
    simp [create_iam_user, create_iam_user_body, hc, hi, h1, *]

/-- Witness for C4: create_user raising a ClientError with description
EntityAlreadyExists aborts the run with exactly that message. -/
theorem C4_witness :
    create_iam_user sampleEnv sampleApiCreateUserErr "alice" "AWS_Participants" =
      (.ok (.failure "EntityAlreadyExists"),
       [.clientInit, .createUser "alice"]) :=
  (C4_client_error_aborts sampleEnv sampleApiCreateUserErr "alice" "AWS_Participants"
    "EntityAlreadyExists"
    { aws_access_key_id := "AKIA", aws_secret_access_key := "SECRET", region_name := "ap-south-1" }
    rfl rfl).1 rfl

/-- C5: a success record is only produced by a run in which create_user,
create_login_profile and add_user_to_group all completed without
raising: whenever the returned record is a success, each of those three
calls returned ok. -/
theorem C5_success_requires_all_ok (env : Env) (api : Api) (u g : String)
    (un pw arn cu su : String) (calls : List ApiCall)
    (h : create_iam_user env api u g = (.ok (.success un pw arn cu su), calls)) :
    api.create_user u = .ok { arn := arn } ∧
    api.create_login_profile u (create_password u) = .ok () ∧
    api.add_user_to_group g u = .ok () := by
  obtain ⟨-, -, -, -, -, -, h7, h8, h9, -⟩ :=
    success_run_shape env api u g un pw arn cu su calls h
  exact ⟨h7, h8, h9⟩

/-- Witness for C5 at the all-success API behaviour. -/
theorem C5_witness :
    sampleApiOk.create_user "alice" =
        .ok { arn := "arn:aws:iam::123456789012:user/alice" } ∧
      sampleApiOk.create_login_profile "alice" (create_password "alice") = .ok () ∧
      sampleApiOk.add_user_to_group "AWS_Participants" "alice" = .ok () :=
  C5_success_requires_all_ok sampleEnv sampleApiOk "alice" "AWS_Participants"
    "alice" "alice@encode2025" "arn:aws:iam::123456789012:user/alice"
    "https://console.aws.amazon.com/" "https://myalias.signin.aws.amazon.com/console"
    [.clientInit, .createUser "alice",
     .createLoginProfile "alice" "alice@encode2025",
     .addUserToGroup "AWS_Participants" "alice",
     .listAccountAliases] rfl

/-- C6: if the sign-in URL lookup raises — either the alias listing
raises, or it yields an empty alias list and the caller-identity call
raises — the overall create_iam_user call still returns a success
record, and its signin_url field is exactly the generic fallback
URL https://signin.aws.amazon.com/console. -/
theorem C6_signin_fallback (env : Env) (api : Api) (u g : String)
    (c : Credentials) (hc : get_aws_credentials env = some c)
    (hi : api.client_init = .ok ()) (r : CreateUserResponse)
    (h1 : api.create_user u = .ok r)
    (h2 : api.create_login_profile u (create_password u) = .ok ())
    (h3 : api.add_user_to_group g u = .ok ())
    (hfail : (∃ e, api.list_account_aliases = .error e) ∨
      (∃ resp, api.list_account_aliases = .ok resp ∧ resp.getD [] = [] ∧
        ∃ e, api.get_caller_identity = .error e)) :
    (create_iam_user env api u g).1 =
      .ok (.success u (create_password u) r.arn
        "https://console.aws.amazon.com/" "https://signin.aws.amazon.com/console") := by
  have hurl : (get_custom_signin_url api).1 = "https://signin.aws.amazon.com/console" := by
    rcases hfail with ⟨e, he⟩ | ⟨resp, hresp, hnil, e, he⟩
    · simp [get_custom_signin_url, he]
    · simp [get_custom_signin_url, hresp, hnil, he]
  simp [create_iam_user, create_iam_user_body, hc, hi, h1, h2, h3, hurl]

/-- Witness for C6: the alias listing raising an AttributeError still
yields overall success with the generic sign-in URL. -/
theorem C6_witness :
    (create_iam_user sampleEnv sampleApiAliasErr "alice" "AWS_Participants").1 =
      .ok (.success "alice" "alice@encode2025" "arn:aws:iam::123456789012:user/alice"
        "https://console.aws.amazon.com/" "https://signin.aws.amazon.com/console") :=
  C6_signin_fallback sampleEnv sampleApiAliasErr "alice" "AWS_Participants"
    { aws_access_key_id := "AKIA", aws_secret_access_key := "SECRET", region_name := "ap-south-1" }
    rfl rfl { arn := "arn:aws:iam::123456789012:user/alice" } rfl rfl rfl
    (Or.inl ⟨.other "AttributeError", rfl⟩)

/-- C7: sign-in resolution order: when the alias listing succeeds with a
non-empty alias list, the URL is built from the first alias and no
caller-identity call is made; when it succeeds with no aliases, the
account id is obtained through the separate get_caller_identity call
and the URL is built from that account id. -/
theorem C7_signin_resolution_order (api : Api) :
    (∀ resp a rest, api.list_account_aliases = .ok resp →
      resp.getD [] = a :: rest →
      get_custom_signin_url api =
        ("https://" ++ a ++ ".signin.aws.amazon.com/console",
         [.listAccountAliases])) ∧
    (∀ resp acct, api.list_account_aliases = .ok resp →
      resp.getD [] = [] → api.get_caller_identity = .ok acct →
      get_custom_signin_url api =
        ("https://" ++ acct ++ ".signin.aws.amazon.com/console",
         [.listAccountAliases, .getCallerIdentity])) := by
  constructor
  · intro resp a rest h1 h2
    simp [get_custom_signin_url, h1, h2]
  · intro resp acct h1 h2 h3
    simp [get_custom_signin_url, h1, h2, h3]

/-- Witness for C7 at one API behaviour with a configured alias and one
without any alias. -/
theorem C7_witness :
    get_custom_signin_url sampleApiOk =
        ("https://myalias.signin.aws.amazon.com/console", [.listAccountAliases]) ∧
      get_custom_signin_url sampleApiNoAlias =
        ("https://123456789012.signin.aws.amazon.com/console",
         [.listAccountAliases, .getCallerIdentity]) :=
  ⟨(C7_signin_resolution_order sampleApiOk).1 (some ["myalias"]) "myalias" [] rfl rfl,
   (C7_signin_resolution_order sampleApiNoAlias).2 (some []) "123456789012" rfl rfl rfl⟩

/-- Concrete environment resolving credentials from the environment
variables, for witnesses. -/
def envVarsEnv : Env :=
  { secrets_aws := none, env_access_key_id := some "AK2",
    env_secret_access_key := some "SK2", env_region := none }

/-- C8: for every success record produced by create_iam_user, each field
passed into it — username, password, arn, console URL and sign-in
URL — occurs verbatim as a substring of the credentials document built
by create_credentials_text from that record, which is a pure function
of its four string arguments. -/
theorem C8_format_roundtrip (env : Env) (api : Api) (u g : String)
    (un pw arn cu su : String) (calls : List ApiCall)
    (h : create_iam_user env api u g = (.ok (.success un pw arn cu su), calls)) :
    OccursIn un (create_credentials_text un pw arn su) ∧
    OccursIn pw (create_credentials_text un pw arn su) ∧
    OccursIn arn (create_credentials_text un pw arn su) ∧
    OccursIn cu (create_credentials_text un pw arn su) ∧
    OccursIn su (create_credentials_text un pw arn su) := by
  obtain ⟨-, -, h3, -, -, -, -, -, -, -⟩ :=
    success_run_shape env api u g un pw arn cu su calls h
  subst h3
  refine ⟨?_, ?_, ?_, ?_, ?_⟩
  · exact ⟨"AWS WORKSHOP CREDENTIALS\n------------------------\nUsername: ",
      "\nPassword: " ++ pw ++ "\nARN: " ++ arn
        ++ "\nConsole URL: " ++ "https://console.aws.amazon.com/"
        ++ "\nSign-in URL: " ++ su
        ++ "\n\nInstructions:\n1. Go to the Sign-in URL above\n2. Enter the Username and Password\n3. You don\x27t need to enter an account ID\n",
      by simp only [create_credentials_text, String.append_assoc]⟩
  · exact ⟨"AWS WORKSHOP CREDENTIALS\n------------------------\nUsername: "
        ++ un ++ "\nPassword: ",
      "\nARN: " ++ arn
        ++ "\nConsole URL: " ++ "https://console.aws.amazon.com/"
        ++ "\nSign-in URL: " ++ su
        ++ "\n\nInstructions:\n1. Go to the Sign-in URL above\n2. Enter the Username and Password\n3. You don\x27t need to enter an account ID\n",
      by simp only [create_credentials_text, String.append_assoc]⟩
  · exact ⟨"AWS WORKSHOP CREDENTIALS\n------------------------\nUsername: "
        ++ un ++ "\nPassword: " ++ pw ++ "\nARN: ",
      "\nConsole URL: " ++ "https://console.aws.amazon.com/"
        ++ "\nSign-in URL: " ++ su
        ++ "\n\nInstructions:\n1. Go to the Sign-in URL above\n2. Enter the Username and Password\n3. You don\x27t need to enter an account ID\n",
      by simp only [create_credentials_text, String.append_assoc]⟩
  · exact ⟨"AWS WORKSHOP CREDENTIALS\n------------------------\nUsername: "
        ++ un ++ "\nPassword: " ++ pw ++ "\nARN: " ++ arn ++ "\nConsole URL: ",
      "\nSign-in URL: " ++ su
        ++ "\n\nInstructions:\n1. Go to the Sign-in URL above\n2. Enter the Username and Password\n3. You don\x27t need to enter an account ID\n",
      by simp only [create_credentials_text, String.append_assoc]⟩
  · exact ⟨"AWS WORKSHOP CREDENTIALS\n------------------------\nUsername: "
        ++ un ++ "\nPassword: " ++ pw ++ "\nARN: " ++ arn
        ++ "\nConsole URL: " ++ "https://console.aws.amazon.com/"
        ++ "\nSign-in URL: ",
      "\n\nInstructions:\n1. Go to the Sign-in URL above\n2. Enter the Username and Password\n3. You don\x27t need to enter an account ID\n",
      by simp only [create_credentials_text, String.append_assoc]⟩

/-- Witness for C8 at the concrete success record of the all-success
run for username alice. -/
theorem C8_witness :
    OccursIn "alice"
        (create_credentials_text "alice" "alice@encode2025"
          "arn:aws:iam::123456789012:user/alice"
          "https://myalias.signin.aws.amazon.com/console") ∧
      OccursIn "alice@encode2025"
        (create_credentials_text "alice" "alice@encode2025"
          "arn:aws:iam::123456789012:user/alice"
          "https://myalias.signin.aws.amazon.com/console") ∧
      OccursIn "arn:aws:iam::123456789012:user/alice"
        (create_credentials_text "alice" "alice@encode2025"
          "arn:aws:iam::123456789012:user/alice"
          "https://myalias.signin.aws.amazon.com/console") ∧
      OccursIn "https://console.aws.amazon.com/"
        (create_credentials_text "alice" "alice@encode2025"
          "arn:aws:iam::123456789012:user/alice"
          "https://myalias.signin.aws.amazon.com/console") ∧
      OccursIn "https://myalias.signin.aws.amazon.com/console"
        (create_credentials_text "alice" "alice@encode2025"
          "arn:aws:iam::123456789012:user/alice"
          "https://myalias.signin.aws.amazon.com/console") :=
  C8_format_roundtrip sampleEnv sampleApiOk "alice" "AWS_Participants"
    "alice" "alice@encode2025" "arn:aws:iam::123456789012:user/alice"
    "https://console.aws.amazon.com/" "https://myalias.signin.aws.amazon.com/console"
    [.clientInit, .createUser "alice",
     .createLoginProfile "alice" "alice@encode2025",
     .addUserToGroup "AWS_Participants" "alice",
     .listAccountAliases] rfl

/-- C9: credential resolution order: a present aws secrets section wins
and its region defaults to ap-south-1; otherwise both environment
variables must be present and the region defaults to us-east-1;
otherwise nothing is found. -/
theorem C9_credential_resolution_order (e : Env) :
    (∀ s, e.secrets_aws = some s →
      get_aws_credentials e =
        some { aws_access_key_id := s.aws_access_key_id,
               aws_secret_access_key := s.aws_secret_access_key,
               region_name := s.region_name.getD "ap-south-1" }) ∧
    (∀ ak sk, e.secrets_aws = none → e.env_access_key_id = some ak →
      e.env_secret_access_key = some sk →
      get_aws_credentials e =
        some { aws_access_key_id := ak,
               aws_secret_access_key := sk,
               region_name := e.env_region.getD "us-east-1" }) ∧
    (e.secrets_aws = none →
      (e.env_access_key_id = none ∨ e.env_secret_access_key = none) →
      get_aws_credentials e = none) := by
  refine ⟨fun s hs => ?_, fun ak sk h0 h1 h2 => ?_, fun h0 h12 => ?_⟩
  · simp [get_aws_credentials, hs]
  · simp [get_aws_credentials, h0, h1, h2]
  · rcases h12 with h1 | h2
    · simp [get_aws_credentials, h0, h1]
    · cases h3 : e.env_access_key_id with
      | none => simp [get_aws_credentials, h0, h3]
      | some ak => simp [get_aws_credentials, h0, h3, h2]

/-- Witness for C9 at a secrets environment, an environment-variable
environment and an empty environment. -/
theorem C9_witness :
    get_aws_credentials sampleEnv =
        some { aws_access_key_id := "AKIA",
               aws_secret_access_key := "SECRET",
               region_name := "ap-south-1" } ∧
      get_aws_credentials envVarsEnv =
        some { aws_access_key_id := "AK2",
               aws_secret_access_key := "SK2",
               region_name := "us-east-1" } ∧
      get_aws_credentials emptyEnv = none :=
  ⟨(C9_credential_resolution_order sampleEnv).1
      { aws_access_key_id := "AKIA"
        aws_secret_access_key := "SECRET"
        region_name := none } rfl,
   (C9_credential_resolution_order envVarsEnv).2.1 "AK2" "SK2" rfl rfl rfl,
   (C9_credential_resolution_order emptyEnv).2.2 rfl (Or.inl rfl)⟩

/-- C10: only a ClientError is converted into the failure record: an
exception escaping create_iam_user is never a ClientError, and any
non ClientError exception raised inside the try body — outside the
sign-in URL lookup, whose own try absorbs everything — propagates to
the caller unchanged instead of becoming a failure record. -/
theorem C10_only_client_error_caught (env : Env) (api : Api) (u g : String) :
    (∀ e, (create_iam_user env api u g).1 = .error e → ∃ m, e = PyExc.other m) ∧
    (∀ m calls, create_iam_user_body env api u g = (.error (.other m), calls) →
      create_iam_user env api u g = (.error (.other m), calls)) := by
  constructor
  · intro e he
    rcases hb : create_iam_user_body env api u g with ⟨res, calls⟩
    rcases res with ex | v
    · rcases ex with m | m
      · simp [create_iam_user, hb] at he
      · refine ⟨m, ?_⟩
        simp [create_iam_user, hb] at he
        first
        | exact he
        | exact he.symm
    · simp [create_iam_user, hb] at he
  · intro m calls hb
    unfold create_iam_user
    rw [hb]

/-- Witness for C10: create_user raising a KeyError, a non ClientError
exception, escapes create_iam_user unchanged. -/
theorem C10_witness :
    create_iam_user sampleEnv sampleApiOtherErr "alice" "AWS_Participants" =
      (.error (.other "KeyError"), [.clientInit, .createUser "alice"]) :=
  (C10_only_client_error_caught sampleEnv sampleApiOtherErr "alice" "AWS_Participants").2
    "KeyError" [.clientInit, .createUser "alice"] rfl
